import Mathlib

/-!
Shallow embedding of `src/datapipe/viz_executor.py` (filter stage,
aggregation stage, value-column resolution, execution orchestrator).

Tables are modelled as a column-name list plus rows of cell values
(`DF`); scalar cells (`Value`) are numbers (exact rationals standing in
for the numeric values pandas manipulates), strings, booleans, or
missing (`null`, standing for NaN/None).  Pandas elementwise semantics
used by the source are embedded explicitly: `pd.to_numeric(errors =
coerce)` is `toNumeric`, elementwise `==`/`!=` are `pyEq`, the four
ordering comparisons are partial (`Option Bool`): a comparison between
non-comparable values (e.g. a string cell against a number) is `none`,
modelling the TypeError pandas raises, which `apply_filters` does not
catch.  `groupby(group_cols, dropna := false)[y].agg(f).reset_index`
is `groupAgg`: one output row per distinct key (first-appearance
order; key order does not matter to any property proved here), columns
`group_cols ++ [new_col]`, where a `reset_index` name collision with a
group column is the ValueError the source catches and turns into None.
-/

namespace VizExec

inductive Value where
  | num (q : ℚ)
  | str (s : String)
  | bool (b : Bool)
  | null
deriving DecidableEq, Repr

structure DF where
  cols : List String
  rows : List (List Value)
deriving DecidableEq, Repr

structure Fil where
  column : String
  op : String
  value : Value
deriving DecidableEq, Repr

structure Spec where
  chart_type : String
  x : String
  y : String
  group_by : Option String
  aggregation : Value
  filters : List Fil
deriving DecidableEq, Repr

/-- First index of a column name in a header list (pandas column lookup). -/
def colIdx (c : String) : List String → Option Nat
  | [] => none
  | c' :: l => if c' = c then some 0 else (colIdx c l).map (· + 1)

/-- Cell of a row at a named column; `null` when the column is absent. -/
def cell (cols : List String) (r : List Value) (c : String) : Value :=
  match colIdx c cols with
  | some i => r.getD i Value.null
  | none => Value.null

/-- Decimal digits to a natural number; `none` on a non-digit or empty input. -/
def parseNat (cs : List Char) : Option Nat :=
  if cs.isEmpty then none
  else cs.foldlM (fun acc c => if c.isDigit then some (acc * 10 + (c.toNat - 48)) else none) 0

/-- Decimal numeral parser standing in for the numeric parsing done by
`pd.to_numeric`: optional sign, integer part, optional fractional part. -/
def parseNumQ (s : String) : Option ℚ :=
  let cs := s.data
  let signed : Bool × List Char :=
    match cs with
    | '-' :: rest => (true, rest)
    | '+' :: rest => (false, rest)
    | _ => (false, cs)
  let body := signed.2
  let intPart := body.takeWhile (fun c => c ≠ '.')
  let rest := body.dropWhile (fun c => c ≠ '.')
  let mag : Option ℚ :=
    match rest with
    | [] => (parseNat intPart).map (fun n => (n : ℚ))
    | _ :: frac =>
      if rest.length = 1 ∧ frac.isEmpty then
        (parseNat intPart).map (fun n => (n : ℚ))
      else
        match (if intPart.isEmpty then some 0 else parseNat intPart), parseNat frac with
        | some ip, some fp => some ((ip : ℚ) + (fp : ℚ) / ((10 : ℚ) ^ frac.length))
        | _, _ => none
  mag.map (fun q => if signed.1 then -q else q)

/-- `pd.to_numeric(v, errors = coerce)` on one cell: numbers stay, booleans
become 0/1, numeric strings are parsed, everything else becomes missing. -/
def toNumeric : Value → Value
  | .num q => .num q
  | .bool b => .num (if b then 1 else 0)
  | .str s =>
    match parseNumQ s with
    | some q => .num q
    | none => .null
  | .null => .null

/-- Numeric view of a value for Python arithmetic comparisons
(booleans are integers in Python). -/
def pyNumQ : Value → Option ℚ
  | .num q => some q
  | .bool b => some (if b then 1 else 0)
  | _ => none

/-- Pandas elementwise `==` of a cell against a scalar: null never matches,
numbers and booleans compare numerically, strings compare as strings,
cross-type comparisons are False. -/
def pyEq (a b : Value) : Bool :=
  match a, b with
  | .null, _ => false
  | _, .null => false
  | .str sa, .str sb => sa == sb
  | a, b =>
    match pyNumQ a, pyNumQ b with
    | some qa, some qb => qa == qb
    | _, _ => false

/-- Pandas elementwise ordering comparison of a cell against a scalar:
a null cell yields False, numbers/booleans compare numerically, strings
compare lexicographically, and any other pairing is undefined (`none`),
modelling the TypeError pandas raises. `f` compares rationals and `g`
compares strings. -/
def pyOrd (f : ℚ → ℚ → Bool) (g : String → String → Bool) (a b : Value) : Option Bool :=
  match a with
  | .null => some false
  | _ =>
    match pyNumQ a, pyNumQ b with
    | some qa, some qb => some (f qa qb)
    | _, _ =>
      match a, b with
      | .str sa, .str sb => some (g sa sb)
      | _, _ => none

def pyGtV (a b : Value) : Option Bool :=
  pyOrd (fun x y => decide (y < x)) (fun s t => decide (t < s)) a b

def pyLtV (a b : Value) : Option Bool :=
  pyOrd (fun x y => decide (x < y)) (fun s t => decide (s < t)) a b

def pyGeV (a b : Value) : Option Bool :=
  pyOrd (fun x y => decide (y ≤ x)) (fun s t => decide (t ≤ s)) a b

def pyLeV (a b : Value) : Option Bool :=
  pyOrd (fun x y => decide (x ≤ y)) (fun s t => decide (s ≤ t)) a b

/-- Comparator selected by the four ordering operator strings of
`apply_filters`; `none` for any other operator. -/
def ordCmpOf : String → Option (Value → Value → Option Bool) :=
  fun op =>
    if op = ">" then some pyGtV
    else if op = "<" then some pyLtV
    else if op = ">=" then some pyGeV
    else if op = "<=" then some pyLeV
    else none

/-- One ordering-comparison filter step (`filtered_df[filtered_df[col] > value]`
and friends): if every cell comparison is defined, keep the rows comparing
true; otherwise the comparison raises (models the uncaught pandas TypeError). -/
def ordFilter (df : DF) (c : String) (cmp : Value → Value → Option Bool) (v : Value) :
    Except Unit DF :=
  if df.rows.all (fun r => (cmp (cell df.cols r c) v).isSome) then
    .ok { df with rows := df.rows.filter (fun r => (cmp (cell df.cols r c) v).getD false) }
  else
    .error ()

/-- One iteration of the `apply_filters` loop: a missing column or an
unrecognized operator leaves the table unchanged; `==`/`!=` filter by
`pyEq`; the four ordering operators filter via `ordFilter`. -/
def applyOneFilter (df : DF) (f : Fil) : Except Unit DF :=
  if f.column ∈ df.cols then
    if f.op = "==" then
      .ok { df with rows := df.rows.filter (fun r => pyEq (cell df.cols r f.column) f.value) }
    else if f.op = "!=" then
      .ok { df with rows := df.rows.filter (fun r => !(pyEq (cell df.cols r f.column) f.value)) }
    else
      match ordCmpOf f.op with
      | some cmp => ordFilter df f.column cmp f.value
      | none => .ok df
  else
    .ok df

/-- `apply_filters(df, filters)`: left fold of the filter predicates over
the table; an undefined ordering comparison aborts with an error
(the uncaught TypeError). -/
def applyFilters (df : DF) (fs : List Fil) : Except Unit DF :=
  fs.foldlM applyOneFilter df

/-- Row update for `df[y] = pd.to_numeric(df[y], errors = coerce)`. -/
def rowSetNum (cols : List String) (y : String) (r : List Value) : List Value :=
  match colIdx y cols with
  | some i => r.set i (toNumeric (r.getD i Value.null))
  | none => r

/-- `df[y] = pd.to_numeric(df[y], errors = coerce)` on the whole table. -/
def setColNumeric (df : DF) (y : String) : DF :=
  { df with rows := df.rows.map (rowSetNum df.cols y) }

/-- `df.dropna(subset = [y])`: keep the rows whose `y` cell is not missing. -/
def dropNullRows (df : DF) (y : String) : DF :=
  { df with rows := df.rows.filter (fun r => !(cell df.cols r y == Value.null)) }

/-- Numeric content of a value: the rational of a number, 0 otherwise
(missing values contribute nothing to a pandas column sum). -/
def qOf : Value → ℚ
  | .num q => q
  | _ => 0

/-- The numeric entries of a list of cells (pandas aggregations skip NaN). -/
def numsOf (vs : List Value) : List ℚ :=
  vs.filterMap (fun v => match v with | .num q => some q | _ => none)

/-- Pandas `sum` of a grouped column: sum of the non-missing numbers (0 when empty). -/
def aggSum (vs : List Value) : Value :=
  .num (numsOf vs).sum

/-- Pandas `count` of a grouped column: the number of non-missing cells. -/
def aggCount (vs : List Value) : Value :=
  .num ((vs.filter (fun v => !(v == Value.null))).length : ℚ)

/-- Pandas `mean` of a grouped column: arithmetic mean of the non-missing
numbers, missing when there are none. -/
def aggMean (vs : List Value) : Value :=
  match numsOf vs with
  | [] => .null
  | q :: qs => .num ((q :: qs).sum / ((q :: qs).length : ℚ))

/-- Pandas `min` of a grouped column. -/
def aggMin (vs : List Value) : Value :=
  match numsOf vs with
  | [] => .null
  | q :: qs => .num (qs.foldl min q)

/-- Pandas `max` of a grouped column. -/
def aggMax (vs : List Value) : Value :=
  match numsOf vs with
  | [] => .null
  | q :: qs => .num (qs.foldl max q)

/-- Insertion into a sorted list of rationals (ascending). -/
def insertSorted (q : ℚ) : List ℚ → List ℚ
  | [] => [q]
  | a :: l => if q ≤ a then q :: a :: l else a :: insertSorted q l

/-- Insertion sort of a list of rationals. -/
def sortQ (l : List ℚ) : List ℚ :=
  l.foldr insertSorted []

/-- Pandas `median` of a grouped column: middle element (or mean of the two
middle elements) of the sorted non-missing numbers. -/
def aggMedian (vs : List Value) : Value :=
  let ns := sortQ (numsOf vs)
  let n := ns.length
  if n = 0 then .null
  else if n % 2 = 1 then .num (ns.getD (n / 2) 0)
  else .num ((ns.getD (n / 2 - 1) 0 + ns.getD (n / 2) 0) / 2)

/-- Python `str.lower()` on the ASCII tokens the engine deals with:
characterwise lowercasing. -/
def lowerStr (s : String) : String :=
  String.mk (s.data.map Char.toLower)

/-- The source's `agg_map`: the reduction function of each recognized
aggregation token (`average` maps to the mean), `none` for any other token. -/
def aggLookup : String → Option (List Value → Value) :=
  fun a =>
    if a = "sum" then some aggSum
    else if a = "mean" then some aggMean
    else if a = "average" then some aggMean
    else if a = "count" then some aggCount
    else if a = "max" then some aggMax
    else if a = "min" then some aggMin
    else if a = "median" then some aggMedian
    else none

/-- Normalization of the spec's aggregation entry (lines 50-54 of the
source): a string is lowercased, any non-string value becomes "none". -/
def normAgg : Value → String
  | .str s => lowerStr s
  | _ => "none"

/-- Group-column construction (lines 84-87): `[x]`, extended with `group_by`
only when it is truthy, a live column, and distinct from `x`. -/
def groupColsOf (x : String) (gb : Option String) (cols : List String) : List String :=
  match gb with
  | some g => if g ≠ "" ∧ g ∈ cols ∧ g ≠ x then [x, g] else [x]
  | none => [x]

/-- Key of a row with respect to the group columns. -/
def keyOf (cols gcols : List String) (r : List Value) : List Value :=
  gcols.map (fun c => cell cols r c)

/-- Distinct elements of a list in first-appearance order, skipping those
already seen. -/
def dedupFirstAux {α : Type} [DecidableEq α] (seen : List α) : List α → List α
  | [] => []
  | a :: l => if a ∈ seen then dedupFirstAux seen l else a :: dedupFirstAux (a :: seen) l

/-- Distinct elements of a list in first-appearance order. -/
def dedupFirst {α : Type} [DecidableEq α] (l : List α) : List α :=
  dedupFirstAux [] l

/-- `df.groupby(group_cols, dropna = false)[y].agg(f).reset_index(name = newCol)`:
one row per distinct key (missing keys included), carrying the key cells
followed by the reduction of the group's `y` cells. -/
def groupAgg (df : DF) (gcols : List String) (y : String)
    (fn : List Value → Value) (newCol : String) : DF :=
  let keys := dedupFirst (df.rows.map (keyOf df.cols gcols))
  { cols := gcols ++ [newCol],
    rows := keys.map (fun k =>
      k ++ [fn ((df.rows.filter (fun r => keyOf df.cols gcols r == k)).map
        (fun r => cell df.cols r y))]) }

/-- Numeric preparation (lines 73-82): every aggregation except `count`
re-coerces `y` and drops the rows whose `y` is missing; an empty remainder
is the NoNumericData failure. -/
def numericPrep (df1 : DF) (y : String) (agg0 : String) : Option DF :=
  if agg0 = "count" then some df1
  else if (dropNullRows (setColNumeric df1 y) y).rows.isEmpty then none
  else some (dropNullRows (setColNumeric df1 y) y)

/-- The grouping tail of `aggregate_dataframe` (lines 84-118): fall back to
the mean on an unrecognized token, name the output column `<agg>_<y>`, and
group; a name collision between the output column and a group column is the
`reset_index` ValueError the source catches and turns into None. -/
def aggregateGrouped (df2 : DF) (spec : Spec) (agg0 : String) : Option DF :=
  if ((if (aggLookup agg0).isSome then agg0 else "mean") ++ "_" ++ spec.y) ∈
      groupColsOf spec.x spec.group_by df2.cols then none
  else
    some (groupAgg df2 (groupColsOf spec.x spec.group_by df2.cols) spec.y
      ((aggLookup agg0).getD aggMean)
      ((if (aggLookup agg0).isSome then agg0 else "mean") ++ "_" ++ spec.y))

/-- `aggregate_dataframe(df, spec)`: validate `x` and `y`, coerce `y` to
numeric (line 67), pass through on aggregation none/empty, otherwise
prepare numerically and group. -/
def aggregate_dataframe (df : DF) (spec : Spec) : Option DF :=
  if spec.x ∈ df.cols then
    if spec.y ∈ df.cols then
      if normAgg spec.aggregation = "none" ∨ normAgg spec.aggregation = "" then
        some (setColNumeric df spec.y)
      else
        match numericPrep (setColNumeric df spec.y) spec.y (normAgg spec.aggregation) with
        | none => none
        | some df2 => aggregateGrouped df2 spec (normAgg spec.aggregation)
    else none
  else none

/-- Python truthiness of a spec value (`if agg and ...`, line 150). -/
def truthy : Value → Bool
  | .null => false
  | .str s => !(s == "")
  | .num q => !(q == 0)
  | .bool b => b

/-- Value-column computation of `execute_chart_spec` (lines 149-153):
a falsy token or one lowercasing to "none"/"" resolves to `y`; a truthy
string resolves to `"<agg>_<y>"` built from the RAW token (not lowercased);
a truthy non-string raises AttributeError on `.lower()` (`none`). -/
def valueColOf (agg : Value) (y : String) : Option String :=
  if truthy agg then
    match agg with
    | .str s => if lowerStr s = "none" ∨ lowerStr s = "" then some y else some (s ++ "_" ++ y)
    | _ => none
  else some y

/-- Outcome of `execute_chart_spec`: an uncaught exception, a None return,
or a returned table. -/
inductive ExecResult where
  | raised
  | failed
  | ok (df : DF)
deriving DecidableEq, Repr

/-- `execute_chart_spec(df, spec)`: filter, fail on an empty filtered table,
aggregate, fail on a missing/empty aggregate, resolve the value column and
fail when it is absent, otherwise return the aggregated table (the plotting
block only has caught side effects and cannot change the result). -/
def execute_chart_spec (df : DF) (spec : Spec) : ExecResult :=
  match applyFilters df spec.filters with
  | .error _ => .raised
  | .ok dff =>
    if dff.rows.isEmpty then .failed
    else
      match aggregate_dataframe dff spec with
      | none => .failed
      | some dfa =>
        if dfa.rows.isEmpty then .failed
        else
          match valueColOf spec.aggregation spec.y with
          | none => .raised
          | some vc => if vc ∈ dfa.cols then .ok dfa else .failed

/-- The column sum a pandas `df[c].sum()` computes: missing cells add nothing. -/
def colSumQ (df : DF) (c : String) : ℚ :=
  (df.rows.map (fun r => qOf (cell df.cols r c))).sum

end VizExec

deriving instance DecidableEq for Except

namespace VizExec

theorem getD_oob {α : Type} (l : List α) (i : Nat) (d : α) (h : l.length ≤ i) :
    l.getD i d = d := by
  induction l generalizing i with
  | nil => simp [List.getD]
  | cons a l ih =>
    cases i with
    | zero => simp at h
    | succ j => simpa [List.getD] using ih j (Nat.le_of_succ_le_succ h)

theorem set_oob {α : Type} (l : List α) (i : Nat) (v : α) (h : l.length ≤ i) :
    l.set i v = l := by
  induction l generalizing i with
  | nil => simp
  | cons a l ih =>
    cases i with
    | zero => simp at h
    | succ j => simpa using ih j (Nat.le_of_succ_le_succ h)

theorem getD_set_self {α : Type} (l : List α) (i : Nat) (v d : α) (h : i < l.length) :
    (l.set i v).getD i d = v := by
  induction l generalizing i with
  | nil => simp at h
  | cons a l ih =>
    cases i with
    | zero => simp [List.getD]
    | succ j => simpa [List.getD] using ih j (Nat.lt_of_succ_lt_succ h)

theorem getD_set_ne {α : Type} (l : List α) (i j : Nat) (v d : α) (h : i ≠ j) :
    (l.set i v).getD j d = l.getD j d := by
  induction l generalizing i j with
  | nil => simp
  | cons a l ih =>
    cases i with
    | zero =>
      cases j with
      | zero => exact absurd rfl h
      | succ j => simp [List.getD]
    | succ i =>
      cases j with
      | zero => simp [List.getD]
      | succ j => simpa [List.getD] using ih i j (fun hh => h (by rw [hh]))

theorem getD_append_len {α : Type} (k : List α) (v d : α) :
    (k ++ [v]).getD k.length d = v := by
  induction k with
  | nil => simp [List.getD]
  | cons a k ih => simp [List.getD, ih]

theorem colIdx_append_right (c : String) (l : List String) (h : c ∉ l) :
    colIdx c (l ++ [c]) = some l.length := by
  induction l with
  | nil => simp [colIdx]
  | cons a l ih =>
    have ha : a ≠ c := by
      intro hh
      exact h (by simp [hh])
    have hm : c ∉ l := fun hh => h (List.mem_cons_of_mem a hh)
    simp [colIdx, ha, ih hm]

theorem colIdx_getD (c : String) (cols : List String) (i : Nat) (h : colIdx c cols = some i) :
    i < cols.length ∧ cols.getD i "" = c := by
  induction cols generalizing i with
  | nil => simp [colIdx] at h
  | cons a l ih =>
    by_cases ha : a = c
    · simp [colIdx, ha] at h
      subst h
      simp [List.getD, ha]
    · simp [colIdx, ha] at h
      obtain ⟨j, hj, hji⟩ := h
      have := ih j hj
      subst hji
      exact ⟨Nat.succ_lt_succ this.1, by simpa [List.getD] using this.2⟩

theorem colIdx_isSome_of_mem (c : String) (cols : List String) (h : c ∈ cols) :
    ∃ i, colIdx c cols = some i := by
  induction cols with
  | nil => simp at h
  | cons a l ih =>
    by_cases ha : a = c
    · exact ⟨0, by simp [colIdx, ha]⟩
    · have : c ∈ l := by
        rcases List.mem_cons.mp h with h1 | h1
        · exact absurd h1.symm ha
        · exact h1
      obtain ⟨j, hj⟩ := ih this
      exact ⟨j + 1, by simp [colIdx, ha, hj]⟩

theorem toNumeric_idem (v : Value) : toNumeric (toNumeric v) = toNumeric v := by
  cases v with
  | num q => rfl
  | bool b => rfl
  | null => rfl
  | str s =>
    simp only [toNumeric]
    cases parseNumQ s <;> rfl

theorem cell_rowSetNum_self (cols : List String) (y : String) (r : List Value) :
    cell cols (rowSetNum cols y r) y = toNumeric (cell cols r y) := by
  cases h : colIdx y cols with
  | none => simp [cell, rowSetNum, h, toNumeric]
  | some i =>
    simp only [cell, rowSetNum, h]
    by_cases hi : i < r.length
    · rw [getD_set_self r i _ _ hi]
    · rw [set_oob r i _ (Nat.le_of_not_lt hi), getD_oob r i _ (Nat.le_of_not_lt hi)]
      rfl

theorem sum_map_filter_split {α : Type} (l : List α) (p : α → Bool) (f : α → ℚ) :
    ((l.filter p).map f).sum + ((l.filter (fun a => !p a)).map f).sum = (l.map f).sum := by
  induction l with
  | nil => simp
  | cons a l ih =>
    cases hp : p a with
    | true =>
      simp [List.filter_cons, hp, ← ih]
      ring
    | false =>
      simp [List.filter_cons, hp, ← ih]
      ring

theorem sum_map_filter_of_zero {α : Type} (l : List α) (p : α → Bool) (f : α → ℚ)
    (h : ∀ a ∈ l, p a = false → f a = 0) :
    ((l.filter p).map f).sum = (l.map f).sum := by
  induction l with
  | nil => simp
  | cons a l ih =>
    have ih' := ih (fun b hb => h b (List.mem_cons_of_mem a hb))
    by_cases hp : p a
    · simp [List.filter_cons, hp, ih']
    · have hp' : p a = false := by simpa using hp
      simp [List.filter_cons, hp', ih', h a (List.mem_cons_self a l) hp']

theorem numsOf_sum (vs : List Value) : (numsOf vs).sum = (vs.map qOf).sum := by
  induction vs with
  | nil => rfl
  | cons v vs ih =>
    simp only [numsOf, List.filterMap_cons] at ih ⊢
    cases v <;> simp [qOf, ih]

theorem mem_dedupFirstAux {α : Type} [DecidableEq α] (l : List α) (seen : List α) (a : α) :
    a ∈ dedupFirstAux seen l ↔ a ∈ l ∧ a ∉ seen := by
  induction l generalizing seen with
  | nil => simp [dedupFirstAux]
  | cons b l ih =>
    by_cases hb : b ∈ seen
    · simp only [dedupFirstAux, if_pos hb, ih]
      constructor
      · rintro ⟨h1, h2⟩
        exact ⟨List.mem_cons_of_mem b h1, h2⟩
      · rintro ⟨h1, h2⟩
        rcases List.mem_cons.mp h1 with h3 | h3
        · subst h3; exact absurd hb h2
        · exact ⟨h3, h2⟩
    · simp only [dedupFirstAux, if_neg hb]
      constructor
      · intro h1
        rcases List.mem_cons.mp h1 with h3 | h3
        · subst h3
          exact ⟨List.mem_cons_self a l, hb⟩
        · have h4 := (ih (b :: seen)).mp h3
          exact ⟨List.mem_cons_of_mem b h4.1, fun hh => h4.2 (List.mem_cons_of_mem b hh)⟩
      · rintro ⟨h1, h2⟩
        by_cases hab : a = b
        · subst hab
          exact List.mem_cons_self a _
        · rcases List.mem_cons.mp h1 with h3 | h3
          · exact absurd h3 hab
          · apply List.mem_cons_of_mem
            apply (ih (b :: seen)).mpr
            refine ⟨h3, fun hh => ?_⟩
            rcases List.mem_cons.mp hh with h4 | h4
            · exact hab h4
            · exact h2 h4

theorem nodup_dedupFirstAux {α : Type} [DecidableEq α] (l : List α) (seen : List α) :
    (dedupFirstAux seen l).Nodup := by
  induction l generalizing seen with
  | nil => simp [dedupFirstAux]
  | cons b l ih =>
    by_cases hb : b ∈ seen
    · simpa [dedupFirstAux, if_pos hb] using ih seen
    · simp only [dedupFirstAux, if_neg hb]
      refine List.Nodup.cons ?_ (ih (b :: seen))
      intro hmem
      have := (mem_dedupFirstAux l (b :: seen) b).mp hmem
      exact this.2 (List.mem_cons_self b seen)

theorem mem_dedupFirst {α : Type} [DecidableEq α] (l : List α) (a : α) :
    a ∈ dedupFirst l ↔ a ∈ l := by
  simp [dedupFirst, mem_dedupFirstAux]

theorem nodup_dedupFirst {α : Type} [DecidableEq α] (l : List α) :
    (dedupFirst l).Nodup :=
  nodup_dedupFirstAux l []

theorem sum_partition {α K : Type} [BEq K] [LawfulBEq K] (κ : α → K) (f : α → ℚ) :
    ∀ (Ks : List K) (l : List α), Ks.Nodup → (∀ r ∈ l, κ r ∈ Ks) →
      (Ks.map (fun k => ((l.filter (fun r => κ r == k)).map f).sum)).sum = (l.map f).sum := by
  intro Ks
  induction Ks with
  | nil =>
    intro l _ hcov
    have : l = [] := by
      cases l with
      | nil => rfl
      | cons a l => exact absurd (hcov a (List.mem_cons_self a l)) (by simp)
    simp [this]
  | cons k Ks ih =>
    intro l hnd hcov
    have hk : k ∉ Ks := (List.nodup_cons.mp hnd).1
    have hnd2 : Ks.Nodup := (List.nodup_cons.mp hnd).2
    have hsplit := sum_map_filter_split l (fun r => κ r == k) f
    have htail : ∀ k2 ∈ Ks,
        ((l.filter (fun r => κ r == k2)).map f).sum =
        (((l.filter (fun r => !(κ r == k))).filter (fun r => κ r == k2)).map f).sum := by
      intro k2 hk2
      have hkk : k2 ≠ k := fun hh => hk (hh ▸ hk2)
      congr 1
      congr 1
      rw [List.filter_filter]
      apply List.filter_congr
      intro r _
      cases hb : κ r == k2 with
      | true =>
        have he : κ r = k2 := eq_of_beq hb
        have hne : (κ r == k) = false := by
          cases hb2 : κ r == k with
          | true => exact absurd (eq_of_beq hb2) (he ▸ hkk)
          | false => rfl
        simp [hb, hne]
      | false => simp [hb]
    have hcov2 : ∀ r ∈ l.filter (fun r => !(κ r == k)), κ r ∈ Ks := by
      intro r hr
      have hm := List.mem_filter.mp hr
      have h1 := hcov r hm.1
      rcases List.mem_cons.mp h1 with h2 | h2
      · exfalso
        have := hm.2
        simp [h2] at this
      · exact h2
    have hmap : (Ks.map (fun k2 => ((l.filter (fun r => κ r == k2)).map f).sum)) =
        (Ks.map (fun k2 =>
          (((l.filter (fun r => !(κ r == k))).filter (fun r => κ r == k2)).map f).sum)) := by
      apply List.map_congr_left
      intro k2 hk2
      exact htail k2 hk2
    simp only [List.map_cons, List.sum_cons, hmap,
      ih (l.filter (fun r => !(κ r == k))) hnd2 hcov2]
    exact hsplit

theorem applyOneFilter_ok (df : DF) (f : Fil) (t : DF) (h : applyOneFilter df f = .ok t) :
    t.rows.length ≤ df.rows.length ∧ t.cols = df.cols := by
  unfold applyOneFilter ordFilter at h
  split at h
  · split at h
    · cases h
      exact ⟨List.length_filter_le _ _, rfl⟩
    · split at h
      · cases h
        exact ⟨List.length_filter_le _ _, rfl⟩
      · split at h
        · split at h
          · cases h
            exact ⟨List.length_filter_le _ _, rfl⟩
          · cases h
        · cases h
          exact ⟨Nat.le_refl _, rfl⟩
  · cases h
    exact ⟨Nat.le_refl _, rfl⟩

theorem applyFilters_ok (fs : List Fil) (df t : DF) (h : applyFilters df fs = .ok t) :
    t.rows.length ≤ df.rows.length ∧ t.cols = df.cols := by
  induction fs generalizing df with
  | nil =>
    cases h
    exact ⟨Nat.le_refl _, rfl⟩
  | cons f fs ih =>
    unfold applyFilters at h ih
    rw [List.foldlM_cons] at h
    cases hstep : applyOneFilter df f with
    | error e =>
      rw [hstep] at h
      simp [Bind.bind, Except.bind] at h
    | ok d =>
      rw [hstep] at h
      simp only [Bind.bind, Except.bind] at h
      have h1 := applyOneFilter_ok df f d hstep
      have h2 := ih d h
      exact ⟨Nat.le_trans h2.1 h1.1, h2.2.trans h1.2⟩

theorem applyOneFilter_unknown_op (df : DF) (f : Fil)
    (h : f.op ∉ ["==", "!=", ">", "<", ">=", "<="]) :
    applyOneFilter df f = .ok df := by
  have h1 : f.op ≠ "==" := by intro hh; exact h (by simp [hh])
  have h2 : f.op ≠ "!=" := by intro hh; exact h (by simp [hh])
  have h3 : f.op ≠ ">" := by intro hh; exact h (by simp [hh])
  have h4 : f.op ≠ "<" := by intro hh; exact h (by simp [hh])
  have h5 : f.op ≠ ">=" := by intro hh; exact h (by simp [hh])
  have h6 : f.op ≠ "<=" := by intro hh; exact h (by simp [hh])
  have hcmp : ordCmpOf f.op = none := by
    unfold ordCmpOf
    rw [if_neg h3, if_neg h4, if_neg h5, if_neg h6]
  unfold applyOneFilter
  rw [if_neg h1, if_neg h2, hcmp]
  split <;> rfl

theorem cols_numericPrep (df1 : DF) (y : String) (agg0 : String) (df2 : DF)
    (h : numericPrep df1 y agg0 = some df2) : df2.cols = df1.cols := by
  unfold numericPrep at h
  split at h
  · cases h
    rfl
  · split at h
    · cases h
    · cases h
      rfl

theorem groupColsOf_shape (x : String) (gb : Option String) (cols : List String) :
    groupColsOf x gb cols = [x] ∨
      ∃ g, gb = some g ∧ g ≠ x ∧ groupColsOf x gb cols = [x, g] := by
  cases gb with
  | none => exact Or.inl rfl
  | some g =>
    by_cases hg : g ≠ "" ∧ g ∈ cols ∧ g ≠ x
    · refine Or.inr ⟨g, rfl, hg.2.2, ?_⟩
      simp [groupColsOf, hg]
    · left
      simp [groupColsOf, hg]

theorem aggregate_some_inv (df : DF) (spec : Spec) (t : DF)
    (h1 : normAgg spec.aggregation ≠ "none") (h2 : normAgg spec.aggregation ≠ "")
    (h : aggregate_dataframe df spec = some t) :
    spec.x ∈ df.cols ∧ spec.y ∈ df.cols ∧
      ∃ df2, numericPrep (setColNumeric df spec.y) spec.y (normAgg spec.aggregation) = some df2 ∧
        aggregateGrouped df2 spec (normAgg spec.aggregation) = some t := by
  unfold aggregate_dataframe at h
  split at h
  · rename_i hx
    split at h
    · rename_i hy
      split at h
      · rename_i hnone
        exfalso
        rcases hnone with hh | hh
        · exact h1 hh
        · exact h2 hh
      · split at h
        · cases h
        · rename_i df2 hprep
          exact ⟨hx, hy, df2, hprep, h⟩
    · cases h
  · cases h

theorem aggregate_none_inv (df : DF) (spec : Spec) (t : DF)
    (hnone : normAgg spec.aggregation = "none" ∨ normAgg spec.aggregation = "")
    (h : aggregate_dataframe df spec = some t) :
    t = setColNumeric df spec.y ∧ spec.x ∈ df.cols ∧ spec.y ∈ df.cols := by
  unfold aggregate_dataframe at h
  split at h
  · rename_i hx
    split at h
    · rename_i hy
      cases h
      exact ⟨rfl, hx, hy⟩
    · cases h
  · cases h

theorem aggregateGrouped_some_inv (df2 : DF) (spec : Spec) (agg0 : String) (t : DF)
    (h : aggregateGrouped df2 spec agg0 = some t) :
    ((if (aggLookup agg0).isSome then agg0 else "mean") ++ "_" ++ spec.y) ∉
        groupColsOf spec.x spec.group_by df2.cols ∧
      t = groupAgg df2 (groupColsOf spec.x spec.group_by df2.cols) spec.y
        ((aggLookup agg0).getD aggMean)
        ((if (aggLookup agg0).isSome then agg0 else "mean") ++ "_" ++ spec.y) := by
  unfold aggregateGrouped at h
  by_cases hmem : ((if (aggLookup agg0).isSome then agg0 else "mean") ++ "_" ++ spec.y) ∈
      groupColsOf spec.x spec.group_by df2.cols
  · simp [hmem] at h
  · rw [if_neg hmem] at h
    cases h
    exact ⟨hmem, rfl⟩

theorem execute_ok_inv (df : DF) (spec : Spec) (t : DF)
    (h : execute_chart_spec df spec = .ok t) :
    ∃ dff, applyFilters df spec.filters = .ok dff ∧ dff.rows.isEmpty = false ∧
      aggregate_dataframe dff spec = some t ∧ t.rows.isEmpty = false ∧
      ∃ vc, valueColOf spec.aggregation spec.y = some vc ∧ vc ∈ t.cols := by
  unfold execute_chart_spec at h
  split at h
  · cases h
  · rename_i dff hf
    split at h
    · cases h
    · rename_i hemp
      split at h
      · cases h
      · rename_i dfa hagg
        split at h
        · cases h
        · rename_i hemp2
          split at h
          · cases h
          · rename_i vc hvc
            split at h
            · rename_i hmem
              cases h
              exact ⟨dff, hf, by simpa using hemp, hagg, by simpa using hemp2, vc, hvc, hmem⟩
            · cases h

theorem numericPrep_noncount (df1 : DF) (y : String) (agg0 : String) (df2 : DF)
    (hcnt : agg0 ≠ "count") (h : numericPrep df1 y agg0 = some df2) :
    df2 = dropNullRows (setColNumeric df1 y) y := by
  unfold numericPrep at h
  rw [if_neg hcnt] at h
  split at h
  · cases h
  · cases h
    rfl

theorem cell_append_last (gcols : List String) (newCol : String) (k : List Value)
    (v : Value) (hnc : newCol ∉ gcols) (hk : k.length = gcols.length) :
    cell (gcols ++ [newCol]) (k ++ [v]) newCol = v := by
  unfold cell
  rw [colIdx_append_right newCol gcols hnc]
  rw [← hk]
  exact getD_append_len k v Value.null

theorem groupAgg_colSum (df : DF) (gcols : List String) (y newCol : String)
    (hnc : newCol ∉ gcols) :
    colSumQ (groupAgg df gcols y aggSum newCol) newCol = colSumQ df y := by
  unfold colSumQ groupAgg
  simp only [List.map_map]
  have hmap : List.map
      ((fun r => qOf (cell (gcols ++ [newCol]) r newCol)) ∘
        (fun k => k ++ [aggSum ((df.rows.filter
          (fun r => keyOf df.cols gcols r == k)).map (fun r => cell df.cols r y))]))
      (dedupFirst (df.rows.map (keyOf df.cols gcols))) =
      List.map (fun k => ((df.rows.filter (fun r => keyOf df.cols gcols r == k)).map
        (fun r => qOf (cell df.cols r y))).sum)
      (dedupFirst (df.rows.map (keyOf df.cols gcols))) := by
    apply List.map_congr_left
    intro k hkmem
    have hk : k ∈ df.rows.map (keyOf df.cols gcols) :=
      (mem_dedupFirst (df.rows.map (keyOf df.cols gcols)) k).mp hkmem
    obtain ⟨r0, _, hr0⟩ := List.mem_map.mp hk
    have hlen : k.length = gcols.length := by
      rw [← hr0]
      unfold keyOf
      exact List.length_map gcols _
    simp only [Function.comp]
    rw [cell_append_last gcols newCol k _ hnc hlen]
    have : qOf (aggSum ((df.rows.filter (fun r => keyOf df.cols gcols r == k)).map
        (fun r => cell df.cols r y))) =
        (numsOf ((df.rows.filter (fun r => keyOf df.cols gcols r == k)).map
          (fun r => cell df.cols r y))).sum := rfl
    rw [this, numsOf_sum, List.map_map]
    rfl
  rw [hmap]
  exact sum_partition (keyOf df.cols gcols) (fun r => qOf (cell df.cols r y))
    (dedupFirst (df.rows.map (keyOf df.cols gcols))) df.rows
    (nodup_dedupFirst _)
    (fun r hr => (mem_dedupFirst _ _).mpr (List.mem_map.mpr ⟨r, hr, rfl⟩))

theorem colSumQ_dropNullRows (df : DF) (y : String) :
    colSumQ (dropNullRows df y) y = colSumQ df y := by
  unfold colSumQ dropNullRows
  exact sum_map_filter_of_zero df.rows _ _
    (fun r _ hp => by
      have : cell df.cols r y = Value.null := by
        by_cases hcell : cell df.cols r y = Value.null
        · exact hcell
        · exfalso
          simp [hcell] at hp
      rw [this]
      rfl)

theorem colSumQ_setCol_twice (df : DF) (y : String) :
    colSumQ (setColNumeric (setColNumeric df y) y) y = colSumQ (setColNumeric df y) y := by
  unfold colSumQ setColNumeric
  simp only [List.map_map]
  apply congrArg
  apply List.map_congr_left
  intro r _
  simp only [Function.comp]
  rw [cell_rowSetNum_self, cell_rowSetNum_self, toNumeric_idem]

/-- Claim C7: for every table and filter list on which `apply_filters` returns,
the result has at most as many rows as the input table, and the empty filter
list returns the original table unchanged (same rows, same order, same
columns). -/
theorem claim7_filter_monotone (df : DF) (fs : List Fil) (t : DF)
    (h : applyFilters df fs = .ok t) :
    t.rows.length ≤ df.rows.length ∧ applyFilters df [] = .ok df :=
  ⟨(applyFilters_ok fs df t h).1, rfl⟩

/-- Witness for C7: a concrete table of two rows filtered by `price > 8`
keeps one row, and the empty filter list is the identity. -/
theorem claim7_filter_monotone_witness :
    applyFilters ⟨["price"], [[Value.num 10], [Value.num 5]]⟩
        [{ column := "price", op := ">", value := Value.num 8 }] =
      .ok ⟨["price"], [[Value.num 10]]⟩ ∧
    ((⟨["price"], [[Value.num 10]]⟩ : DF).rows.length ≤
      (⟨["price"], [[Value.num 10], [Value.num 5]]⟩ : DF).rows.length ∧
     applyFilters ⟨["price"], [[Value.num 10], [Value.num 5]]⟩ [] =
       .ok ⟨["price"], [[Value.num 10], [Value.num 5]]⟩) :=
  ⟨by with_unfolding_all decide,
   claim7_filter_monotone ⟨["price"], [[Value.num 10], [Value.num 5]]⟩
     [{ column := "price", op := ">", value := Value.num 8 }]
     ⟨["price"], [[Value.num 10]]⟩ (by with_unfolding_all decide)⟩

/-- Claim C9: a filter predicate whose operator is not one of the six
supported strings is silently ignored by `apply_filters`: deleting it from
the filter list does not change the result, and it raises no error. -/
theorem claim9_unknown_op_ignored (df : DF) (fs1 fs2 : List Fil) (f : Fil)
    (h : f.op ∉ ["==", "!=", ">", "<", ">=", "<="]) :
    applyFilters df (fs1 ++ f :: fs2) = applyFilters df (fs1 ++ fs2) := by
  unfold applyFilters
  induction fs1 generalizing df with
  | nil =>
    simp only [List.nil_append, List.foldlM_cons]
    rw [applyOneFilter_unknown_op df f h]
    simp [Bind.bind, Except.bind]
  | cons g fs1 ih =>
    simp only [List.cons_append, List.foldlM_cons]
    cases hstep : applyOneFilter df g with
    | error e => simp [Bind.bind, Except.bind]
    | ok d =>
      simp only [Bind.bind, Except.bind]
      exact ih d

/-- Witness for C9: a `between` predicate in the middle of a filter list is
ignored on a concrete table. -/
theorem claim9_unknown_op_ignored_witness :
    ({ column := "price", op := "between", value := Value.num 3 } : Fil).op ∉
        ["==", "!=", ">", "<", ">=", "<="] ∧
      applyFilters ⟨["price"], [[Value.num 10], [Value.num 5]]⟩
          ([{ column := "price", op := ">", value := Value.num 8 }] ++
            { column := "price", op := "between", value := Value.num 3 } :: []) =
        applyFilters ⟨["price"], [[Value.num 10], [Value.num 5]]⟩
          ([{ column := "price", op := ">", value := Value.num 8 }] ++ []) :=
  ⟨by decide,
   claim9_unknown_op_ignored ⟨["price"], [[Value.num 10], [Value.num 5]]⟩
     [{ column := "price", op := ">", value := Value.num 8 }] []
     { column := "price", op := "between", value := Value.num 3 } (by decide)⟩

/-- Claim C5: for a numeric aggregation (token neither none/empty nor count),
when coercing `y` and dropping the uncoercible rows leaves zero rows,
`aggregate_dataframe` returns the failure `none`, never an empty table. -/
theorem claim5_no_numeric_data_fails (df : DF) (spec : Spec) (T : String)
    (hA : spec.aggregation = Value.str T)
    (h1 : lowerStr T ≠ "none") (h2 : lowerStr T ≠ "") (h3 : lowerStr T ≠ "count")
    (hdrop : (dropNullRows (setColNumeric (setColNumeric df spec.y) spec.y) spec.y).rows = []) :
    aggregate_dataframe df spec = none := by
  have hnorm : normAgg spec.aggregation = lowerStr T := by rw [hA]; rfl
  have hprep : numericPrep (setColNumeric df spec.y) spec.y (normAgg spec.aggregation) = none := by
    unfold numericPrep
    rw [hnorm, if_neg h3]
    have hemp : (dropNullRows (setColNumeric (setColNumeric df spec.y) spec.y) spec.y).rows.isEmpty
        = true := by
      rw [hdrop]
      rfl
    simp [hemp]
  unfold aggregate_dataframe
  by_cases hx : spec.x ∈ df.cols
  · rw [if_pos hx]
    by_cases hy : spec.y ∈ df.cols
    · rw [if_pos hy]
      rw [if_neg (by
        rw [hnorm]
        rintro (hh | hh)
        · exact h1 hh
        · exact h2 hh)]
      rw [hprep]
    · rw [if_neg hy]
  · rw [if_neg hx]

/-- Witness for C5: scenario E — every `price` is non-numeric text and the
aggregation is `sum`; the aggregation stage fails. -/
theorem claim5_no_numeric_data_fails_witness :
    ({ chart_type := "bar", x := "category", y := "price", group_by := none,
       aggregation := Value.str "sum", filters := [] } : Spec).aggregation =
        Value.str "sum" ∧
    lowerStr "sum" ≠ "none" ∧ lowerStr "sum" ≠ "" ∧ lowerStr "sum" ≠ "count" ∧
    (dropNullRows (setColNumeric (setColNumeric
        ⟨["category","price"], [[Value.str "A", Value.str "abc"]]⟩ "price") "price")
        "price").rows = [] ∧
    aggregate_dataframe ⟨["category","price"], [[Value.str "A", Value.str "abc"]]⟩
      { chart_type := "bar", x := "category", y := "price", group_by := none,
        aggregation := Value.str "sum", filters := [] } = none :=
  ⟨rfl, by with_unfolding_all decide, by with_unfolding_all decide,
   by with_unfolding_all decide, by with_unfolding_all decide,
   claim5_no_numeric_data_fails
     ⟨["category","price"], [[Value.str "A", Value.str "abc"]]⟩
     { chart_type := "bar", x := "category", y := "price", group_by := none,
       aggregation := Value.str "sum", filters := [] } "sum" rfl
     (by with_unfolding_all decide) (by with_unfolding_all decide)
     (by with_unfolding_all decide) (by with_unfolding_all decide)⟩

/-- Claim C10: a non-string aggregation value is treated as "none":
`aggregate_dataframe` behaves exactly as with the token "none", performs no
grouping, and (when `x` and `y` are live columns) returns the coerced table
with its row count unchanged. -/
theorem claim10_nonstring_agg_is_none (df : DF) (spec : Spec)
    (hns : ∀ s, spec.aggregation ≠ Value.str s)
    (hx : spec.x ∈ df.cols) (hy : spec.y ∈ df.cols) :
    aggregate_dataframe df spec = some (setColNumeric df spec.y) ∧
      (setColNumeric df spec.y).rows.length = df.rows.length ∧
      aggregate_dataframe df spec =
        aggregate_dataframe df { spec with aggregation := Value.str "none" } := by
  have hnorm : normAgg spec.aggregation = "none" := by
    cases hagg : spec.aggregation with
    | num q => rfl
    | str s => exact absurd hagg (hns s)
    | bool b => rfl
    | null => rfl
  have hnone : lowerStr "none" = "none" := by with_unfolding_all decide
  have hmain : aggregate_dataframe df spec = some (setColNumeric df spec.y) := by
    unfold aggregate_dataframe
    rw [if_pos hx, if_pos hy, if_pos (Or.inl hnorm)]
  refine ⟨hmain, by simp [setColNumeric], ?_⟩
  rw [hmain]
  unfold aggregate_dataframe
  rw [if_pos hx, if_pos hy]
  rw [if_pos (Or.inl (by simpa [normAgg] using hnone))]

/-- Witness for C10: a null aggregation value on a concrete table behaves
like "none". -/
theorem claim10_nonstring_agg_is_none_witness :
    (∀ s, ({ chart_type := "bar", x := "category", y := "price", group_by := none,
             aggregation := Value.null, filters := [] } : Spec).aggregation ≠ Value.str s) ∧
    "category" ∈ (⟨["category","price"], [[Value.str "A", Value.str "10"]]⟩ : DF).cols ∧
    "price" ∈ (⟨["category","price"], [[Value.str "A", Value.str "10"]]⟩ : DF).cols ∧
    (aggregate_dataframe ⟨["category","price"], [[Value.str "A", Value.str "10"]]⟩
        { chart_type := "bar", x := "category", y := "price", group_by := none,
          aggregation := Value.null, filters := [] } =
      some (setColNumeric ⟨["category","price"], [[Value.str "A", Value.str "10"]]⟩ "price") ∧
    (setColNumeric ⟨["category","price"], [[Value.str "A", Value.str "10"]]⟩ "price").rows.length =
      (⟨["category","price"], [[Value.str "A", Value.str "10"]]⟩ : DF).rows.length ∧
    aggregate_dataframe ⟨["category","price"], [[Value.str "A", Value.str "10"]]⟩
        { chart_type := "bar", x := "category", y := "price", group_by := none,
          aggregation := Value.null, filters := [] } =
      aggregate_dataframe ⟨["category","price"], [[Value.str "A", Value.str "10"]]⟩
        { chart_type := "bar", x := "category", y := "price", group_by := none,
          aggregation := Value.str "none", filters := [] }) :=
  ⟨fun s => by simp, by decide, by decide,
   claim10_nonstring_agg_is_none
     ⟨["category","price"], [[Value.str "A", Value.str "10"]]⟩
     { chart_type := "bar", x := "category", y := "price", group_by := none,
       aggregation := Value.null, filters := [] }
     (fun s => by simp) (by decide) (by decide)⟩

theorem aggregateGrouped_cols (df2 : DF) (spec : Spec) (agg0 : String) (t : DF)
    (h : aggregateGrouped df2 spec agg0 = some t) :
    ∃ A gcols, gcols = groupColsOf spec.x spec.group_by df2.cols ∧
      (A = agg0 ∨ A = "mean") ∧
      (A ++ "_" ++ spec.y) ∉ gcols ∧
      t.cols = gcols ++ [A ++ "_" ++ spec.y] := by
  obtain ⟨hnc, ht⟩ := aggregateGrouped_some_inv df2 spec agg0 t h
  refine ⟨(if (aggLookup agg0).isSome then agg0 else "mean"),
    groupColsOf spec.x spec.group_by df2.cols, rfl, ?_, hnc, by rw [ht]; rfl⟩
  by_cases hl : (aggLookup agg0).isSome
  · left
    simp [hl]
  · right
    simp [hl]

/-- Claim C8: when aggregation succeeds with token "sum" (any casing), the
sum of the per-group sums in the `sum_<y>` column of the result equals the
sum of the coerced measure column of the input (filtered) table, in exact
rational arithmetic. -/
theorem claim8_sum_preservation (df : DF) (spec : Spec) (T : String) (t : DF)
    (hA : spec.aggregation = Value.str T) (hT : lowerStr T = "sum")
    (h : aggregate_dataframe df spec = some t) :
    colSumQ t ("sum_" ++ spec.y) = colSumQ (setColNumeric df spec.y) spec.y := by
  have hnorm : normAgg spec.aggregation = "sum" := by
    rw [hA]
    simpa [normAgg] using hT
  have h1 : normAgg spec.aggregation ≠ "none" := by
    rw [hnorm]
    decide
  have h2 : normAgg spec.aggregation ≠ "" := by
    rw [hnorm]
    decide
  obtain ⟨hx, hy, df2, hprep, hgr⟩ := aggregate_some_inv df spec t h1 h2 h
  rw [hnorm] at hprep hgr
  have hdf2 : df2 = dropNullRows (setColNumeric (setColNumeric df spec.y) spec.y) spec.y :=
    numericPrep_noncount _ _ _ _ (by decide) hprep
  obtain ⟨hnc, ht⟩ := aggregateGrouped_some_inv df2 spec "sum" t hgr
  have hsum : aggLookup "sum" = some aggSum := rfl
  rw [hsum] at hnc ht
  simp only [Option.isSome_some, Option.getD_some, if_true] at hnc ht
  have hstr : ("sum_" : String) ++ spec.y = "sum" ++ "_" ++ spec.y := by
    have hh : ("sum_" : String) = "sum" ++ "_" := by decide
    rw [hh]
  rw [ht, hstr, groupAgg_colSum df2 (groupColsOf spec.x spec.group_by df2.cols) spec.y
    ("sum" ++ "_" ++ spec.y) hnc]
  rw [hdf2, colSumQ_dropNullRows, colSumQ_setCol_twice]

/-- Witness for C8: scenario A with aggregation sum — per-group sums 30 and 5
add up to the coerced column total 35. -/
theorem claim8_sum_preservation_witness :
    ({ chart_type := "bar", x := "category", y := "price", group_by := none,
       aggregation := Value.str "sum", filters := [] } : Spec).aggregation =
      Value.str "sum" ∧
    lowerStr "sum" = "sum" ∧
    aggregate_dataframe
        ⟨["category","price"], [[Value.str "A", Value.str "10"],
          [Value.str "A", Value.str "20"], [Value.str "B", Value.str "5"]]⟩
        { chart_type := "bar", x := "category", y := "price", group_by := none,
          aggregation := Value.str "sum", filters := [] } =
      some ⟨["category","sum_price"], [[Value.str "A", Value.num 30],
        [Value.str "B", Value.num 5]]⟩ ∧
    colSumQ ⟨["category","sum_price"], [[Value.str "A", Value.num 30],
        [Value.str "B", Value.num 5]]⟩ ("sum_" ++ "price") =
      colSumQ (setColNumeric ⟨["category","price"], [[Value.str "A", Value.str "10"],
        [Value.str "A", Value.str "20"], [Value.str "B", Value.str "5"]]⟩ "price") "price" :=
  ⟨rfl, by with_unfolding_all decide, by with_unfolding_all decide,
   claim8_sum_preservation
     ⟨["category","price"], [[Value.str "A", Value.str "10"],
       [Value.str "A", Value.str "20"], [Value.str "B", Value.str "5"]]⟩
     { chart_type := "bar", x := "category", y := "price", group_by := none,
       aggregation := Value.str "sum", filters := [] } "sum"
     ⟨["category","sum_price"], [[Value.str "A", Value.num 30], [Value.str "B", Value.num 5]]⟩
     rfl (by with_unfolding_all decide) (by with_unfolding_all decide)⟩

/-- Counterexample to claim C1: with token "Foo", `x = "Foo_price"`,
`y = "price"` and `group_by = "price"`, execution succeeds (the value-column
check at line 151 matches the raw token name against the grouping column
`Foo_price`), yet the result table contains a column named plain `y`
("price", retained as a grouping key) and contains NO column named
`<T>_<y>` with T lowercased (`foo_price` is absent — the measure column is
`mean_price` after the fallback). Both conjuncts of the claimed naming
invariant fail at this one input. -/
theorem claim1_counterexample :
    execute_chart_spec ⟨["Foo_price", "price"], [[Value.str "k", Value.str "10"]]⟩
        { chart_type := "bar", x := "Foo_price", y := "price", group_by := some "price",
          aggregation := Value.str "Foo", filters := [] } =
      .ok ⟨["Foo_price", "price", "mean_price"],
        [[Value.str "k", Value.num 10, Value.num 10]]⟩ ∧
    "price" ∈ (⟨["Foo_price", "price", "mean_price"],
        [[Value.str "k", Value.num 10, Value.num 10]]⟩ : DF).cols ∧
    ((⟨["Foo_price", "price", "mean_price"],
        [[Value.str "k", Value.num 10, Value.num 10]]⟩ : DF).cols.filter
      (fun c => c == "foo_price")).length = 0 := by
  refine ⟨?_, ?_, ?_⟩
  · with_unfolding_all decide
  · decide
  · decide

/-- Claim C1 as amended: when execution succeeds with a string aggregation
token `T`: if `T` does not lowercase to "none" or empty, the result table
contains exactly one column named `<T>_<y>` with `T` exactly as written in
the spec (the lowercased form can be absent, as the counterexample shows,
because the orchestrator matches the raw token against the columns), and no
column named plain `y` unless `y` is itself one of the grouping columns
(`y = x`, or `group_by = y`); if `T` lowercases to "none", the result keeps
the filtered table's columns unchanged, so the measure column retains its
original name `y`. -/
theorem claim1_naming_amended (df : DF) (spec : Spec) (T : String) (t : DF)
    (hA : spec.aggregation = Value.str T)
    (hok : execute_chart_spec df spec = .ok t) :
    (lowerStr T ≠ "none" → lowerStr T ≠ "" →
      (t.cols.filter (fun c => c == T ++ "_" ++ spec.y)).length = 1 ∧
        (spec.y ∈ t.cols → spec.y = spec.x ∨ spec.group_by = some spec.y)) ∧
    (lowerStr T = "none" → t.cols = df.cols ∧ spec.y ∈ t.cols) := by
  obtain ⟨dff, hf, hne, hagg, hne2, vc, hvc, hmem⟩ := execute_ok_inv df spec t hok
  refine ⟨?_, ?_⟩
  case refine_2 =>
    intro hnone
    have hnorm : normAgg spec.aggregation = lowerStr T := by
      rw [hA]
      rfl
    have ht := aggregate_none_inv dff spec t (Or.inl (hnorm.trans hnone)) hagg
    have hcolst : t.cols = dff.cols := by
      rw [ht.1]
      rfl
    have hdffcols : dff.cols = df.cols := (applyFilters_ok spec.filters df dff hf).2
    refine ⟨hcolst.trans hdffcols, ?_⟩
    rw [hcolst]
    exact ht.2.2
  intro h1 h2
  have hTne : T ≠ "" := fun hh => h2 (by rw [hh]; rfl)
  have hvc2 : valueColOf spec.aggregation spec.y = some (T ++ "_" ++ spec.y) := by
    rw [hA]
    unfold valueColOf
    have htr : truthy (Value.str T) = true := by simp [truthy, hTne]
    rw [if_pos htr]
    dsimp only
    rw [if_neg (by
      rintro (hh | hh)
      · exact h1 hh
      · exact h2 hh)]
  have hvcT : vc = T ++ "_" ++ spec.y := by
    have := hvc.symm.trans hvc2
    exact Option.some.inj this
  have hnorm : normAgg spec.aggregation = lowerStr T := by
    rw [hA]
    rfl
  obtain ⟨hx, hy, df2, hprep, hgr⟩ := aggregate_some_inv dff spec t
    (by rw [hnorm]; exact h1) (by rw [hnorm]; exact h2) hagg
  obtain ⟨A, gcols, hgdef, hAor, hAnc, hcols⟩ := aggregateGrouped_cols df2 spec _ t hgr
  have hymem : spec.y ≠ A ++ "_" ++ spec.y := by
    intro hh
    have hlen := congrArg String.length hh
    rw [String.length_append, String.length_append,
      show ("_" : String).length = 1 from rfl] at hlen
    omega
  have hTyin : T ++ "_" ++ spec.y ∈ t.cols := hvcT ▸ hmem
  have hshape := groupColsOf_shape spec.x spec.group_by df2.cols
  rw [← hgdef] at hshape
  constructor
  · rw [hcols] at hTyin ⊢
    rw [List.filter_append, List.length_append]
    by_cases hTA : T ++ "_" ++ spec.y = A ++ "_" ++ spec.y
    · have hf1 : ([A ++ "_" ++ spec.y].filter
          (fun c => c == T ++ "_" ++ spec.y)).length = 1 := by
        simp [List.filter_cons, hTA.symm]
      have hf0 : (gcols.filter (fun c => c == T ++ "_" ++ spec.y)).length = 0 := by
        have hnil : gcols.filter (fun c => c == T ++ "_" ++ spec.y) = [] := by
          rw [List.filter_eq_nil_iff]
          intro c hcmem
          simp only [beq_iff_eq]
          intro hceq
          exact hAnc (by rw [← hTA, ← hceq]; exact hcmem)
        rw [hnil]
        rfl
      rw [hf0, hf1]
    · have hTyg : T ++ "_" ++ spec.y ∈ gcols := by
        rcases List.mem_append.mp hTyin with hg | hg
        · exact hg
        · exact absurd (List.mem_singleton.mp hg) hTA
      have hAT : ¬(A ++ "_" ++ spec.y = T ++ "_" ++ spec.y) := fun hh => hTA hh.symm
      have hf1 : ([A ++ "_" ++ spec.y].filter
          (fun c => c == T ++ "_" ++ spec.y)).length = 0 := by
        simp [List.filter_cons, hAT]
      rcases hshape with hsh | ⟨g, hgb, hgx, hsh⟩
      · rw [hsh] at hTyg ⊢
        have hxeq : T ++ "_" ++ spec.y = spec.x := List.mem_singleton.mp hTyg
        rw [hf1]
        simp [List.filter_cons, hxeq]
      · rw [hsh] at hTyg ⊢
        rw [hf1]
        rcases List.mem_cons.mp hTyg with hcase | hcase
        · simp [List.filter_cons, hcase, hgx]
        · have hTY : T ++ "_" ++ spec.y = g := List.mem_singleton.mp hcase
          simp [List.filter_cons, hTY, Ne.symm hgx]
  · intro hyin
    rw [hcols] at hyin
    rcases List.mem_append.mp hyin with hg | hg
    · rcases hshape with hsh | ⟨g, hgb, hgx, hsh⟩
      · rw [hsh] at hg
        exact Or.inl (List.mem_singleton.mp hg)
      · rw [hsh] at hg
        rcases List.mem_cons.mp hg with hcase | hcase
        · exact Or.inl hcase
        · have : spec.y = g := List.mem_singleton.mp hcase
          exact Or.inr (by rw [hgb, this])
    · exact absurd (List.mem_singleton.mp hg) hymem

/-- Witness for the amended C1, exercising both regimes: scenario A with
aggregation "mean" (exactly one `mean_price` column, no plain `price`), and
the token "None" (the coerced pass-through keeps the columns, `price`
retains its name). -/
theorem claim1_naming_amended_witness :
    (execute_chart_spec
        ⟨["category","price"], [[Value.str "A", Value.str "10"],
          [Value.str "A", Value.str "20"], [Value.str "B", Value.str "5"]]⟩
        { chart_type := "bar", x := "category", y := "price", group_by := none,
          aggregation := Value.str "mean", filters := [] } =
      .ok ⟨["category","mean_price"], [[Value.str "A", Value.num 15],
        [Value.str "B", Value.num 5]]⟩ ∧
     ((lowerStr "mean" ≠ "none" → lowerStr "mean" ≠ "" →
        (((⟨["category","mean_price"], [[Value.str "A", Value.num 15],
            [Value.str "B", Value.num 5]]⟩ : DF).cols.filter
          (fun c => c == "mean" ++ "_" ++ "price")).length = 1 ∧
         ("price" ∈ (⟨["category","mean_price"], [[Value.str "A", Value.num 15],
            [Value.str "B", Value.num 5]]⟩ : DF).cols →
           "price" = "category" ∨ (none : Option String) = some "price"))) ∧
      (lowerStr "mean" = "none" →
        (⟨["category","mean_price"], [[Value.str "A", Value.num 15],
          [Value.str "B", Value.num 5]]⟩ : DF).cols =
          (⟨["category","price"], [[Value.str "A", Value.str "10"],
            [Value.str "A", Value.str "20"], [Value.str "B", Value.str "5"]]⟩ : DF).cols ∧
        "price" ∈ (⟨["category","mean_price"], [[Value.str "A", Value.num 15],
          [Value.str "B", Value.num 5]]⟩ : DF).cols))) ∧
    (execute_chart_spec ⟨["category","price"], [[Value.str "A", Value.str "10"]]⟩
        { chart_type := "bar", x := "category", y := "price", group_by := none,
          aggregation := Value.str "None", filters := [] } =
      .ok ⟨["category","price"], [[Value.str "A", Value.num 10]]⟩ ∧
     ((lowerStr "None" ≠ "none" → lowerStr "None" ≠ "" →
        (((⟨["category","price"], [[Value.str "A", Value.num 10]]⟩ : DF).cols.filter
          (fun c => c == "None" ++ "_" ++ "price")).length = 1 ∧
         ("price" ∈ (⟨["category","price"], [[Value.str "A", Value.num 10]]⟩ : DF).cols →
           "price" = "category" ∨ (none : Option String) = some "price"))) ∧
      (lowerStr "None" = "none" →
        (⟨["category","price"], [[Value.str "A", Value.num 10]]⟩ : DF).cols =
          (⟨["category","price"], [[Value.str "A", Value.str "10"]]⟩ : DF).cols ∧
        "price" ∈ (⟨["category","price"], [[Value.str "A", Value.num 10]]⟩ : DF).cols))) :=
  ⟨⟨by with_unfolding_all decide,
    claim1_naming_amended
      ⟨["category","price"], [[Value.str "A", Value.str "10"],
        [Value.str "A", Value.str "20"], [Value.str "B", Value.str "5"]]⟩
      { chart_type := "bar", x := "category", y := "price", group_by := none,
        aggregation := Value.str "mean", filters := [] } "mean"
      ⟨["category","mean_price"], [[Value.str "A", Value.num 15], [Value.str "B", Value.num 5]]⟩
      rfl (by with_unfolding_all decide)⟩,
   ⟨by with_unfolding_all decide,
    claim1_naming_amended
      ⟨["category","price"], [[Value.str "A", Value.str "10"]]⟩
      { chart_type := "bar", x := "category", y := "price", group_by := none,
        aggregation := Value.str "None", filters := [] } "None"
      ⟨["category","price"], [[Value.str "A", Value.num 10]]⟩
      rfl (by with_unfolding_all decide)⟩⟩

/-- Claim C2, evaluated at the failing input: `aggregate_dataframe` degrades
the unrecognized token "total" to the mean and returns the aggregated table
(whose measure column is `mean_price`), but `execute_chart_spec` rebuilds the
value column from the raw token as `total_price`, misses it, and returns the
failure None instead of the aggregated table. -/
theorem claim2_unrecognized_token_execution_fails :
    aggregate_dataframe ⟨["category","price"], [[Value.str "A", Value.num 10],
        [Value.str "B", Value.num 4]]⟩
        { chart_type := "bar", x := "category", y := "price", group_by := none,
          aggregation := Value.str "total", filters := [] } =
      some ⟨["category","mean_price"], [[Value.str "A", Value.num 10],
        [Value.str "B", Value.num 4]]⟩ ∧
    execute_chart_spec ⟨["category","price"], [[Value.str "A", Value.num 10],
        [Value.str "B", Value.num 4]]⟩
        { chart_type := "bar", x := "category", y := "price", group_by := none,
          aggregation := Value.str "total", filters := [] } =
      .failed := by
  constructor
  · with_unfolding_all decide
  · with_unfolding_all decide

/-- Claim C4, evaluated at the failing input: line 67 coerces `y` to numeric
before the count branch, so the non-numeric price "abc" becomes missing and
groupby-count (which counts non-missing cells) excludes it: category "A" with
rows priced "abc" and "10" gets `count_price` 1, not the row count 2 the
claim (and the code's own comment at lines 73-75) requires. -/
theorem claim4_count_excludes_noncoercible :
    aggregate_dataframe ⟨["category","price"], [[Value.str "A", Value.str "abc"],
        [Value.str "A", Value.str "10"]]⟩
        { chart_type := "bar", x := "category", y := "price", group_by := none,
          aggregation := Value.str "count", filters := [] } =
      some ⟨["category","count_price"], [[Value.str "A", Value.num 1]]⟩ := by
  with_unfolding_all decide

/-- Counterexample to claim C3: an ordering comparison between a string cell
and a numeric filter value makes `apply_filters` raise (the pandas TypeError
propagates) rather than yield an empty selection. -/
theorem claim3_counterexample :
    applyFilters ⟨["name"], [[Value.str "a"]]⟩
        [{ column := "name", op := ">", value := Value.num 5 }] = .error () := by
  with_unfolding_all decide

/-- Claim C3 as amended: when an ordering-comparison predicate targets a live
column and some row's cell is not comparable with the predicate's value
(neither both numeric/boolean nor both strings, with a non-missing cell),
`apply_filters` raises an uncaught error instead of returning a table. -/
theorem claim3_incomparable_raises (df : DF) (c opStr : String) (v : Value)
    (cmp : Value → Value → Option Bool)
    (hcmp : ordCmpOf opStr = some cmp)
    (hc : c ∈ df.cols)
    (hbad : ∃ r ∈ df.rows, cmp (cell df.cols r c) v = none) :
    applyFilters df [{ column := c, op := opStr, value := v }] = .error () := by
  have hne1 : opStr ≠ "==" := by
    intro hh
    rw [hh] at hcmp
    cases hcmp
  have hne2 : opStr ≠ "!=" := by
    intro hh
    rw [hh] at hcmp
    cases hcmp
  have hstep : applyOneFilter df { column := c, op := opStr, value := v } = .error () := by
    unfold applyOneFilter
    simp only [if_pos hc]
    rw [if_neg hne1, if_neg hne2, hcmp]
    unfold ordFilter
    dsimp only
    rw [if_neg (by
      simp only [List.all_eq_true]
      intro hall
      obtain ⟨r, hr, hnone⟩ := hbad
      have := hall r hr
      rw [hnone] at this
      cases this)]
  unfold applyFilters
  rw [List.foldlM_cons, hstep]
  rfl

/-- Witness for the amended C3: the concrete one-row string table compared
with a number under `>` raises. -/
theorem claim3_incomparable_raises_witness :
    ordCmpOf ">" = some pyGtV ∧
    "name" ∈ (⟨["name"], [[Value.str "a"]]⟩ : DF).cols ∧
    (∃ r ∈ (⟨["name"], [[Value.str "a"]]⟩ : DF).rows,
      pyGtV (cell ["name"] r "name") (Value.num 5) = none) ∧
    applyFilters ⟨["name"], [[Value.str "a"]]⟩
        [{ column := "name", op := ">", value := Value.num 5 }] = .error () :=
  ⟨rfl, by decide, by decide,
   claim3_incomparable_raises ⟨["name"], [[Value.str "a"]]⟩ "name" ">" (Value.num 5)
     pyGtV rfl (by decide) (by decide)⟩

/-- Counterexample to claim C6: an execution that fails because filtering left
no rows and an execution that fails inside the aggregation stage return the
very same value (None), so the two failure kinds are not distinguishable by
callers from the returned result; the kind and cause are only printed. -/
theorem claim6_counterexample :
    execute_chart_spec ⟨["category","price"], []⟩
        { chart_type := "bar", x := "category", y := "price", group_by := none,
          aggregation := Value.str "sum", filters := [] } = .failed ∧
    execute_chart_spec ⟨["category","price"], [[Value.str "A", Value.str "abc"]]⟩
        { chart_type := "bar", x := "category", y := "price", group_by := none,
          aggregation := Value.str "sum", filters := [] } = .failed ∧
    execute_chart_spec ⟨["category","price"], []⟩
        { chart_type := "bar", x := "category", y := "price", group_by := none,
          aggregation := Value.str "sum", filters := [] } =
      execute_chart_spec ⟨["category","price"], [[Value.str "A", Value.str "abc"]]⟩
        { chart_type := "bar", x := "category", y := "price", group_by := none,
          aggregation := Value.str "sum", filters := [] } := by
  refine ⟨?_, ?_, ?_⟩ <;> with_unfolding_all decide

/-- Claim C6 as amended: every failure of `execute_chart_spec` is signalled
by the same undifferentiated None return; in particular an empty-after-filter
failure and an aggregation-stage failure produce equal results, so callers
cannot tell them apart from the returned value. -/
theorem claim6_failures_indistinguishable (df df2 : DF) (spec spec2 : Spec)
    (dff dff2 : DF)
    (h1 : applyFilters df spec.filters = .ok dff) (h2 : dff.rows.isEmpty = true)
    (h3 : applyFilters df2 spec2.filters = .ok dff2) (h4 : dff2.rows.isEmpty = false)
    (h5 : aggregate_dataframe dff2 spec2 = none) :
    execute_chart_spec df spec = .failed ∧
      execute_chart_spec df2 spec2 = .failed ∧
      execute_chart_spec df spec = execute_chart_spec df2 spec2 := by
  have e1 : execute_chart_spec df spec = .failed := by
    unfold execute_chart_spec
    rw [h1]
    simp [h2]
  have e2 : execute_chart_spec df2 spec2 = .failed := by
    unfold execute_chart_spec
    rw [h3]
    simp [h4, h5]
  exact ⟨e1, e2, by rw [e1, e2]⟩

/-- Witness for the amended C6: concrete empty-after-filter and
aggregation-stage failures return the same value. -/
theorem claim6_failures_indistinguishable_witness :
    applyFilters ⟨["category","price"], []⟩ [] = .ok ⟨["category","price"], []⟩ ∧
    (⟨["category","price"], []⟩ : DF).rows.isEmpty = true ∧
    applyFilters ⟨["category","price"], [[Value.str "A", Value.str "abc"]]⟩ [] =
      .ok ⟨["category","price"], [[Value.str "A", Value.str "abc"]]⟩ ∧
    (⟨["category","price"], [[Value.str "A", Value.str "abc"]]⟩ : DF).rows.isEmpty = false ∧
    aggregate_dataframe ⟨["category","price"], [[Value.str "A", Value.str "abc"]]⟩
        { chart_type := "bar", x := "category", y := "price", group_by := none,
          aggregation := Value.str "sum", filters := [] } = none ∧
    (execute_chart_spec ⟨["category","price"], []⟩
        { chart_type := "bar", x := "category", y := "price", group_by := none,
          aggregation := Value.str "sum", filters := [] } = .failed ∧
     execute_chart_spec ⟨["category","price"], [[Value.str "A", Value.str "abc"]]⟩
        { chart_type := "bar", x := "category", y := "price", group_by := none,
          aggregation := Value.str "sum", filters := [] } = .failed ∧
     execute_chart_spec ⟨["category","price"], []⟩
        { chart_type := "bar", x := "category", y := "price", group_by := none,
          aggregation := Value.str "sum", filters := [] } =
       execute_chart_spec ⟨["category","price"], [[Value.str "A", Value.str "abc"]]⟩
        { chart_type := "bar", x := "category", y := "price", group_by := none,
          aggregation := Value.str "sum", filters := [] }) :=
  ⟨rfl, rfl, rfl, rfl, by with_unfolding_all decide,
   claim6_failures_indistinguishable
     ⟨["category","price"], []⟩
     ⟨["category","price"], [[Value.str "A", Value.str "abc"]]⟩
     { chart_type := "bar", x := "category", y := "price", group_by := none,
       aggregation := Value.str "sum", filters := [] }
     { chart_type := "bar", x := "category", y := "price", group_by := none,
       aggregation := Value.str "sum", filters := [] }
     ⟨["category","price"], []⟩
     ⟨["category","price"], [[Value.str "A", Value.str "abc"]]⟩
     rfl rfl rfl rfl (by with_unfolding_all decide)⟩

end VizExec
